import Mathlib

/-!
Verification development for the Christmas particle choreography program.

The repository drives a 3D particle scene with three display modes
(TREE, SCATTER, FOCUS) selected by hand gestures.  The definitions below are
shallow embeddings of the relevant functions of the source files:

- src/types.ts                  enum SceneMode
- src/App.tsx                   class Experience (setMode, addPhotoToScene)
- src/components/Scene.tsx      class ParticleItem, calculateTargets, animate,
                                handleAddPhoto
- src/unnamed/part_002          ParticleItem.updateScatterPos, calculateTargets,
                                animate, handleAddPhoto
- src/unnamed/part_004          MediaPipeService.detectGestures

Real-number quantities of the source (coordinates, angles, distances) are
modelled over the reals; machine timestamps are modelled as rationals since
the embedded operations only store them.  Randomness (Math.random calls) is
modelled by explicit injected arguments, following the design note of the
spec that asks for an injectable random source.
-/

/-- Display mode, from the SceneMode enum of src/types.ts (the AppMode enum of
the Experience variant has the same three constructors). -/
inductive Mode where
  | TREE
  | SCATTER
  | FOCUS
deriving DecidableEq, Repr

/-- Particle kind of the Scene.tsx and part_002 variants. -/
inductive PType where
  | DECOR
  | PHOTO
  | DUST
deriving DecidableEq, Repr

/-- Particle kind of the Experience variant (ParticleType in part_003). -/
inductive ExpPType where
  | GOLD_BOX
  | GREEN_BOX
  | GOLD_SPHERE
  | RED_SPHERE
  | CANDY_CANE
  | PHOTO
  | DUST
deriving DecidableEq, Repr

/-- Symbolic gesture produced by the classifiers (MediaPipeService returns the
strings NONE, PINCH, FIST, OPEN). -/
inductive Gesture where
  | NONE
  | PINCH
  | FIST
  | OPEN
deriving DecidableEq, Repr

/-- Projection of the ParticleData record of the Experience variant to the
fields read or written by Experience.setMode: the stable id and the kind.
Ids are modelled as naturals. -/
structure ExpParticle where
  id : Nat
  ptype : ExpPType
deriving DecidableEq, Repr

/-- State of the Experience object that setMode touches: current mode, the
particle registry, the tagged focus id, and the lastFocusChange timestamp. -/
structure ExpState where
  mode : Mode
  particles : List ExpParticle
  focusId : Option Nat
  lastFocusChange : ℚ
deriving DecidableEq, Repr

/-- Experience.setMode from src/App.tsx (lines 321 to 341).  The random photo
pick Math.floor(Math.random() * photos.length) is modelled by the injected
index k reduced modulo the photo count.  The forEach over particles that
re-tags the chosen target with type PHOTO is kept even though it is a no-op
on a PHOTO particle. -/
def setMode (s : ExpState) (m : Mode) (k : Nat) (tNow : ℚ) : ExpState :=
  if s.mode ≠ m then
    let s1 := { s with mode := m }
    if m = Mode.FOCUS then
      let s2 := { s1 with lastFocusChange := tNow }
      let photos := s2.particles.filter fun p => decide (p.ptype = ExpPType.PHOTO)
      if h : 0 < photos.length then
        let target := photos.get ⟨k % photos.length, Nat.mod_lt k h⟩
        { s2 with
            particles := s2.particles.map fun p =>
              if p.id = target.id then { p with ptype := ExpPType.PHOTO } else p,
            focusId := some target.id }
      else
        { s2 with mode := Mode.SCATTER }
    else s1
  else s

/-- Mode requested by each gesture, from the state-machine triggers of the
detect-gestures loop in part_001 (PINCH to FOCUS, FIST to TREE, OPEN to
SCATTER, NONE requests nothing). -/
def gestureMode : Gesture → Option Mode
  | Gesture.PINCH => some Mode.FOCUS
  | Gesture.FIST => some Mode.TREE
  | Gesture.OPEN => some Mode.SCATTER
  | Gesture.NONE => none

/-- One delivery of a classified gesture to the Experience state machine:
part_001 calls Experience.setMode with the mode mapped from the gesture. -/
def gestureStep (g : Gesture) (s : ExpState) (k : Nat) (tNow : ℚ) : ExpState :=
  match gestureMode g with
  | none => s
  | some m => setMode s m k tNow

/-- Projection of the ParticleItem record of Scene.tsx and part_002 to the
fields read by the mode and focus logic: the kind and the slot index. -/
structure SceneParticle where
  ptype : PType
  slotIndex : Nat
deriving DecidableEq, Repr

/-- State threaded through the Scene.tsx frame loop: current mode, the
particle list, and focusedPhotoIndex (minus one when unset). -/
structure SceneState where
  mode : Mode
  particles : List SceneParticle
  focusedPhotoIndex : ℤ
deriving DecidableEq, Repr

/-- Registry indices of the PHOTO particles, in order.  This models the pair
of calls particles.filter(p is PHOTO) followed by particles.indexOf(target):
picking the k-th element of the filtered list and asking for its index in
particles is exactly picking the k-th entry of this list. -/
def photoIdxList (ps : List SceneParticle) : List Nat :=
  (ps.enum.filter fun x => decide (x.2.ptype = PType.PHOTO)).map Prod.fst

/-- The PINCH branch of the animate loop in src/components/Scene.tsx (lines
281 to 289): only when not already in FOCUS and at least one PHOTO exists,
pick a random photo, record its registry index and request FOCUS.  The random
pick is modelled by the injected index k reduced modulo the photo count. -/
def scenePinchStep (s : SceneState) (k : Nat) : SceneState :=
  if s.mode ≠ Mode.FOCUS then
    let photos := photoIdxList s.particles
    if h : 0 < photos.length then
      { s with
          mode := Mode.FOCUS,
          focusedPhotoIndex := ((photos.get ⟨k % photos.length, Nat.mod_lt k h⟩ : Nat) : ℤ) }
    else s
  else s

/-- Number of PHOTO particles currently registered; used as the slot index of
the next ingested photo (addPhotoToScene in Scene.tsx and part_002). -/
def photoCount (s : SceneState) : Nat :=
  (s.particles.filter fun p => decide (p.ptype = PType.PHOTO)).length

/-- The add-photo handler of src/components/Scene.tsx (lines 304 to 308):
append a new PHOTO particle, set focusedPhotoIndex to the index of the last
entry of the registry, and request FOCUS. -/
def sceneAddPhoto (s : SceneState) : SceneState :=
  let ps := s.particles ++ [⟨PType.PHOTO, photoCount s⟩]
  { mode := Mode.FOCUS, particles := ps, focusedPhotoIndex := ((ps.length - 1 : Nat) : ℤ) }

/-- The add-photo handler of part_002 (lines 284 to 292): append a new PHOTO
particle and request FOCUS.  Unlike Scene.tsx it does not write
focusedPhotoIndex. -/
def part2AddPhoto (s : SceneState) : SceneState :=
  { s with mode := Mode.FOCUS, particles := s.particles ++ [⟨PType.PHOTO, photoCount s⟩] }

/-- The focus-selection header of calculateTargets in part_002 (lines 194 to
202): on a FOCUS frame with no selected target, pick a random photo and store
its registry index; on a non-FOCUS frame reset the index to minus one.  With
an empty photo list the source indexes past the end and indexOf(undefined)
returns minus one, modelled by the explicit minus-one branch. -/
def part2SelectFocus (s : SceneState) (k : Nat) : SceneState :=
  if s.mode = Mode.FOCUS ∧ s.focusedPhotoIndex = -1 then
    let photos := photoIdxList s.particles
    if h : 0 < photos.length then
      { s with
          focusedPhotoIndex := ((photos.get ⟨k % photos.length, Nat.mod_lt k h⟩ : Nat) : ℤ) }
    else
      { s with focusedPhotoIndex := -1 }
  else if s.mode ≠ Mode.FOCUS then
    { s with focusedPhotoIndex := -1 }
  else s

/-- The operations of the frame loop that write the mode or the focus target:
the PINCH gesture branch, photo ingestion, a plain mode change (the FIST and
OPEN branches, which is how FOCUS is left), and the per-frame focus selection
of part_002. -/
inductive SceneOp where
  | pinch (k : Nat)
  | addPhoto
  | modeSet (m : Mode)
  | select (k : Nat)

/-- Dispatch of one operation on the scene state. -/
def sceneStep : SceneOp → SceneState → SceneState
  | SceneOp.pinch k, s => scenePinchStep s k
  | SceneOp.addPhoto, s => sceneAddPhoto s
  | SceneOp.modeSet m, s => { s with mode := m }
  | SceneOp.select k, s => part2SelectFocus s k

/-- The focus-target invariant: whenever focusedPhotoIndex is set (not
negative) it is the registry index of a PHOTO particle. -/
def focusInv (s : SceneState) : Prop :=
  0 ≤ s.focusedPhotoIndex →
    ∃ p, s.particles.get? s.focusedPhotoIndex.toNat = some p ∧ p.ptype = PType.PHOTO

/-- A 3D vector over the reals, embedding THREE.Vector3 values. -/
structure Vec3 where
  x : ℝ
  y : ℝ
  z : ℝ

/-- A frame of hand landmarks: the landmark array of the detector, indexed by
naturals zero to twenty (wrist 0, thumb tip 4, index tip 8, middle tip 12,
ring tip 16, pinky tip 20, middle base 9). -/
def Hand : Type := Nat → Vec3

/-- Two-argument Math.hypot, the 2D euclidean length. -/
noncomputable def hypot2 (dx dy : ℝ) : ℝ := Real.sqrt (dx ^ 2 + dy ^ 2)

/-- Three-argument Math.hypot, the 3D euclidean length. -/
noncomputable def hypot3 (dx dy dz : ℝ) : ℝ := Real.sqrt (dx ^ 2 + dy ^ 2 + dz ^ 2)

/-- MediaPipeService.detectGestures from part_004 (lines 442 to 478), the
classification part: the pinch distance between thumb tip and index tip is
3D, the extension is the 2D mean over the three fingertips middle, ring and
pinky (the reduce starts from accumulator zero). -/
noncomputable def detectGestures (h : Hand) : Gesture :=
  let wrist := h 0
  let thumbTip := h 4
  let indexTip := h 8
  let pinchDist :=
    hypot3 (thumbTip.x - indexTip.x) (thumbTip.y - indexTip.y) (thumbTip.z - indexTip.z)
  let avgDist :=
    (0 + hypot2 ((h 12).x - wrist.x) ((h 12).y - wrist.y)
       + hypot2 ((h 16).x - wrist.x) ((h 16).y - wrist.y)
       + hypot2 ((h 20).x - wrist.x) ((h 20).y - wrist.y)) / 3
  if pinchDist < 0.05 then Gesture.PINCH
  else if avgDist < 0.25 then Gesture.FIST
  else if avgDist > 0.4 then Gesture.OPEN
  else Gesture.NONE

/-- The gesture classification of the animate loop in src/components/Scene.tsx
(lines 277 to 294): pinch distance 2D between thumb tip and index tip, and
the 2D mean over the four fingertips with the reduce starting from zero.  The
branches there call onModeChange directly; the symbolic gesture they
correspond to is returned. -/
noncomputable def sceneGesture (h : Hand) : Gesture :=
  let pinchDist := hypot2 ((h 4).x - (h 8).x) ((h 4).y - (h 8).y)
  let avgDist :=
    (0 + hypot2 ((h 8).x - (h 0).x) ((h 8).y - (h 0).y)
       + hypot2 ((h 12).x - (h 0).x) ((h 12).y - (h 0).y)
       + hypot2 ((h 16).x - (h 0).x) ((h 16).y - (h 0).y)
       + hypot2 ((h 20).x - (h 0).x) ((h 20).y - (h 0).y)) / 4
  if pinchDist < 0.05 then Gesture.PINCH
  else if avgDist < 0.25 then Gesture.FIST
  else if avgDist > 0.4 then Gesture.OPEN
  else Gesture.NONE

/-- Classifier written from the words of the spec (section 4.4), for the
refinement comparison of claim C2: pinch distance between thumb tip and index
tip computed 2D, then the extension as the mean of the 2D distances from the
four non-thumb fingertips to the wrist, with thresholds tp, tf and topen. -/
noncomputable def specGestureClassify (tp tf topen : ℝ) (h : Hand) : Gesture :=
  let pinchDistance := hypot2 ((h 4).x - (h 8).x) ((h 4).y - (h 8).y)
  let extension :=
    (0 + hypot2 ((h 8).x - (h 0).x) ((h 8).y - (h 0).y)
       + hypot2 ((h 12).x - (h 0).x) ((h 12).y - (h 0).y)
       + hypot2 ((h 16).x - (h 0).x) ((h 16).y - (h 0).y)
       + hypot2 ((h 20).x - (h 0).x) ((h 20).y - (h 0).y)) / 4
  if pinchDistance < tp then Gesture.PINCH
  else if extension < tf then Gesture.FIST
  else if extension > topen then Gesture.OPEN
  else Gesture.NONE

/-- The TREE-mode target of a DECOR particle in calculateTargets of
src/components/Scene.tsx (lines 228 to 235): parameter t is slot over 1500,
radius 13 times (1 - t), angle t * 50 * pi plus time * 0.5, position
(cos(angle) * radius, t * 32 - 15, sin(angle) * radius). -/
noncomputable def treeDecorTarget (slot : Nat) (time : ℝ) : Vec3 :=
  let t : ℝ := (slot : ℝ) / 1500
  let radius : ℝ := 13 * (1 - t)
  let angle : ℝ := t * 50 * Real.pi + time * 0.5
  ⟨Real.cos angle * radius, t * 32 - 15, Real.sin angle * radius⟩

/-- THREE.Vector3.lerp as used by ParticleItem.update: each component moves
toward the target by the fraction alpha of the remaining difference. -/
def lerpV (a b : Vec3) (alpha : ℝ) : Vec3 :=
  ⟨a.x + (b.x - a.x) * alpha, a.y + (b.y - a.y) * alpha, a.z + (b.z - a.z) * alpha⟩

/-- N repetitions of the integrator step of ParticleItem.update toward a fixed
target. -/
def lerpIterV (a b : Vec3) (alpha : ℝ) : Nat → Vec3
  | 0 => a
  | n + 1 => lerpV (lerpIterV a b alpha n) b alpha

/-- Euclidean distance between two vectors. -/
noncomputable def distV (a b : Vec3) : ℝ :=
  Real.sqrt ((a.x - b.x) ^ 2 + (a.y - b.y) ^ 2 + (a.z - b.z) ^ 2)

/-- ParticleItem.updateScatterPos from part_002 (lines 42 to 68).  The two
Math.random() draws (the default radius and the DUST radius) are modelled by
the injected arguments r1 and r2; everything else follows the source: the
PHOTO branch uses radius 22 + (index mod 15) * 1.2 and divides the index by
the hard-coded 50, the other branches divide by the supplied total, and all
branches place the point by spherical angles phi = arccos(1 - 2 * i / total)
and theta = pi * (1 + sqrt 5) * index. -/
noncomputable def updateScatterPos (ptype : PType) (index total : Nat) (r1 r2 : ℝ) : Vec3 :=
  if ptype = PType.PHOTO then
    let radius : ℝ := 22 + ((index % 15 : Nat) : ℝ) * 1.2
    let phi := Real.arccos (1 - 2 * ((index : ℝ) / 50))
    let theta := Real.pi * (1 + Real.sqrt 5) * (index : ℝ)
    ⟨radius * Real.sin phi * Real.cos theta,
     radius * Real.sin phi * Real.sin theta,
     radius * Real.cos phi⟩
  else
    let radius : ℝ := if ptype = PType.DUST then 30 + r2 * 10 else 12 + r1 * 8
    let phi := Real.arccos (1 - 2 * ((index : ℝ) / (total : ℝ)))
    let theta := Real.pi * (1 + Real.sqrt 5) * (index : ℝ)
    ⟨radius * Real.sin phi * Real.cos theta,
     radius * Real.sin phi * Real.sin theta,
     radius * Real.cos phi⟩

/-- The FOCUS-mode target of one particle in calculateTargets of
src/components/Scene.tsx (lines 253 to 261): the particle whose registry
index equals focusedPhotoIndex gets the presentation slot (position (0,2,35),
scale 4.5), every other particle gets its scatter anchor scaled by 2.5 with
scale 0.1.  The output pairs the target position with the target scale. -/
noncomputable def focusTargetFor (scatterPos : Vec3) (idx : Nat) (fpi : ℤ) : Vec3 × Vec3 :=
  if (idx : ℤ) = fpi then
    (⟨0, 2, 35⟩, ⟨4.5, 4.5, 4.5⟩)
  else
    (⟨scatterPos.x * 2.5, scatterPos.y * 2.5, scatterPos.z * 2.5⟩, ⟨0.1, 0.1, 0.1⟩)

/-- The forEach of calculateTargets in FOCUS mode, carrying the running
registry index. -/
noncomputable def focusTargetsAux (fpi : ℤ) (idx : Nat) : List Vec3 → List (Vec3 × Vec3)
  | [] => []
  | sp :: rest => focusTargetFor sp idx fpi :: focusTargetsAux fpi (idx + 1) rest

/-- FOCUS-mode pass of calculateTargets over the scatter anchors of the whole
registry. -/
noncomputable def calculateTargetsFocus (anchors : List Vec3) (fpi : ℤ) : List (Vec3 × Vec3) :=
  focusTargetsAux fpi 0 anchors

/-- Every entry of photoIdxList is the registry index of a PHOTO particle. -/
theorem photoIdx_mem {ps : List SceneParticle} {i : Nat} (h : i ∈ photoIdxList ps) :
    ∃ p, ps.get? i = some p ∧ p.ptype = PType.PHOTO := by
  unfold photoIdxList at h
  rcases List.mem_map.mp h with ⟨pair, hmem, hfst⟩
  rcases List.mem_filter.mp hmem with ⟨henum, hdec⟩
  have hph : pair.2.ptype = PType.PHOTO := of_decide_eq_true hdec
  have hget : ps.get? pair.1 = some pair.2 := by
    rw [List.get?_eq_getElem?]
    exact List.mem_enum_iff_getElem?.mp henum
  exact ⟨pair.2, by rw [← hfst]; exact hget, hph⟩

/-- Requesting the mode that is already current leaves the Experience state
unchanged. -/
theorem setMode_current (s : ExpState) (m : Mode) (k : Nat) (t : ℚ) (h : s.mode = m) :
    setMode s m k t = s := by
  unfold setMode
  simp [h]

/-- Claim C4: requesting the mode that is already current is a no-op.  For
every Experience state, delivering the gesture whose mapped mode equals the
current mode (in particular PINCH while already in FOCUS) returns the state
unchanged: neither the mode nor the focus id moves, and the focus target is
not re-randomized. -/
theorem C4_mode_idempotent (g : Gesture) (s : ExpState) (k : Nat) (t : ℚ)
    (h : gestureMode g = some s.mode) : gestureStep g s k t = s := by
  unfold gestureStep
  rw [h]
  exact setMode_current s s.mode k t rfl

/-- Witness for C4 at a concrete input: the FIST gesture delivered while the
mode is already TREE. -/
theorem C4_witness :
    gestureMode Gesture.FIST =
      some (ExpState.mk Mode.TREE [ExpParticle.mk 7 ExpPType.PHOTO] none 0).mode ∧
    gestureStep Gesture.FIST (ExpState.mk Mode.TREE [ExpParticle.mk 7 ExpPType.PHOTO] none 0) 3 1 =
      ExpState.mk Mode.TREE [ExpParticle.mk 7 ExpPType.PHOTO] none 0 :=
  ⟨rfl, C4_mode_idempotent Gesture.FIST
    (ExpState.mk Mode.TREE [ExpParticle.mk 7 ExpPType.PHOTO] none 0) 3 1 rfl⟩

/-- Counterexample to claim C1 as stated: in the gesture path of
src/components/Scene.tsx, a PINCH received in TREE mode with zero PHOTO
particles in the registry leaves the mode at TREE, so the resulting mode is
not SCATTER. -/
theorem C1_counterexample :
    (scenePinchStep (SceneState.mk Mode.TREE [SceneParticle.mk PType.DECOR 0] (-1)) 0).mode ≠
      Mode.SCATTER := by decide

/-- Claim C1 amended: a FOCUS request with zero PHOTO particles is rejected
and never produces a FOCUS state.  In Experience.setMode the mode falls back
to SCATTER and the focus id is untouched; in the Scene.tsx gesture path the
PINCH is ignored and the state is unchanged (so the mode stays whatever it
was, not necessarily SCATTER). -/
theorem C1_focus_fallback (s : ExpState) (k : Nat) (t : ℚ) (u : SceneState) (k2 : Nat)
    (hs : (s.particles.filter fun p => decide (p.ptype = ExpPType.PHOTO)).length = 0)
    (hm : s.mode ≠ Mode.FOCUS)
    (hu : photoIdxList u.particles = []) :
    (setMode s Mode.FOCUS k t).mode = Mode.SCATTER ∧
    (setMode s Mode.FOCUS k t).focusId = s.focusId ∧
    scenePinchStep u k2 = u := by
  refine ⟨?_, ?_, ?_⟩ <;>
    first
      | (unfold setMode
         rw [if_pos hm, if_pos rfl, dif_neg (by rw [hs]; exact Nat.lt_irrefl 0)])
      | simp [scenePinchStep, hu]

/-- Witness for C1 at concrete inputs: an Experience registry holding one
DUST particle and no PHOTO, and a Scene registry that is empty. -/
theorem C1_witness :
    ((ExpState.mk Mode.TREE [ExpParticle.mk 0 ExpPType.DUST] none 0).particles.filter
        fun p => decide (p.ptype = ExpPType.PHOTO)).length = 0 ∧
    (ExpState.mk Mode.TREE [ExpParticle.mk 0 ExpPType.DUST] none 0).mode ≠ Mode.FOCUS ∧
    photoIdxList (SceneState.mk Mode.SCATTER [] (-1)).particles = [] ∧
    ((setMode (ExpState.mk Mode.TREE [ExpParticle.mk 0 ExpPType.DUST] none 0) Mode.FOCUS 0 0).mode
        = Mode.SCATTER ∧
      (setMode (ExpState.mk Mode.TREE [ExpParticle.mk 0 ExpPType.DUST] none 0) Mode.FOCUS 0 0).focusId
        = (ExpState.mk Mode.TREE [ExpParticle.mk 0 ExpPType.DUST] none 0).focusId ∧
      scenePinchStep (SceneState.mk Mode.SCATTER [] (-1)) 5 = SceneState.mk Mode.SCATTER [] (-1)) :=
  ⟨by decide, by decide, by decide,
    C1_focus_fallback (ExpState.mk Mode.TREE [ExpParticle.mk 0 ExpPType.DUST] none 0) 0 0
      (SceneState.mk Mode.SCATTER [] (-1)) 5 (by decide) (by decide) (by decide)⟩

/-- Counterexample to claim C3 as stated: in the part_002 variant, ingesting a
photo while in SCATTER with two existing PHOTO particles sets the mode to
FOCUS but does not record the new particle; the next frame then picks a
random photo (here the injected pick lands on the first), so the focus target
is not the newly created particle (registry index 2). -/
theorem C3_counterexample :
    (part2SelectFocus
        (part2AddPhoto
          (SceneState.mk Mode.SCATTER [SceneParticle.mk PType.PHOTO 0, SceneParticle.mk PType.PHOTO 1] (-1)))
        0).focusedPhotoIndex ≠
      ((part2AddPhoto
          (SceneState.mk Mode.SCATTER [SceneParticle.mk PType.PHOTO 0, SceneParticle.mk PType.PHOTO 1] (-1))).particles.length
        - 1 : ℤ) := by decide

/-- Claim C3 amended: in src/components/Scene.tsx the add-photo handler
appends a new PHOTO particle and immediately enters FOCUS with
focusedPhotoIndex equal to the index of that new particle, overriding random
selection; in the part_002 variant the handler only appends the particle and
enters FOCUS, leaving the target to the random per-frame selection. -/
theorem C3_ingest_focus (s : SceneState) :
    (sceneAddPhoto s).mode = Mode.FOCUS ∧
    (sceneAddPhoto s).particles.get? s.particles.length =
      some (SceneParticle.mk PType.PHOTO (photoCount s)) ∧
    (sceneAddPhoto s).focusedPhotoIndex = (s.particles.length : ℤ) ∧
    (part2AddPhoto s).mode = Mode.FOCUS ∧
    (part2AddPhoto s).particles.get? s.particles.length =
      some (SceneParticle.mk PType.PHOTO (photoCount s)) ∧
    (part2AddPhoto s).focusedPhotoIndex = s.focusedPhotoIndex := by
  refine ⟨rfl, ?_, ?_, rfl, ?_, rfl⟩
  · show (s.particles ++ [SceneParticle.mk PType.PHOTO (photoCount s)]).get? s.particles.length = _
    rw [List.get?_eq_getElem?]
    exact List.getElem?_concat_length s.particles (SceneParticle.mk PType.PHOTO (photoCount s))
  · show (((s.particles ++ [SceneParticle.mk PType.PHOTO (photoCount s)]).length - 1 : Nat) : ℤ) = _
    rw [List.length_append]
    norm_num
  · show (s.particles ++ [SceneParticle.mk PType.PHOTO (photoCount s)]).get? s.particles.length = _
    rw [List.get?_eq_getElem?]
    exact List.getElem?_concat_length s.particles (SceneParticle.mk PType.PHOTO (photoCount s))

/-- Claim C5: the focus-target invariant is preserved by every operation that
writes the mode or the focus target: the PINCH entry into FOCUS, photo
ingestion, plain mode changes (which is how FOCUS is left), and the per-frame
selection of part_002.  Whenever focusedPhotoIndex is set, it indexes a
registered PHOTO particle. -/
theorem C5_focus_invariant (op : SceneOp) (s : SceneState) (hInv : focusInv s) :
    focusInv (sceneStep op s) := by
  cases op with
  | pinch k =>
      show focusInv (scenePinchStep s k)
      simp only [scenePinchStep]
      split
      · split
        next hlen =>
          intro _
          have hmem : (photoIdxList s.particles).get
              ⟨k % (photoIdxList s.particles).length, Nat.mod_lt k hlen⟩ ∈
                photoIdxList s.particles := List.get_mem _ _ _
          rcases photoIdx_mem hmem with ⟨p, hget, hph⟩
          exact ⟨p, by simpa using hget, hph⟩
        next => exact hInv
      · exact hInv
  | addPhoto =>
      show focusInv (sceneAddPhoto s)
      simp only [sceneAddPhoto]
      intro _
      refine ⟨SceneParticle.mk PType.PHOTO (photoCount s), ?_, rfl⟩
      dsimp only
      rw [Int.toNat_natCast]
      have h1 : (s.particles ++ [SceneParticle.mk PType.PHOTO (photoCount s)]).length - 1 =
          s.particles.length := by simp
      rw [h1, List.get?_eq_getElem?]
      exact List.getElem?_concat_length _ _
  | modeSet m =>
      exact hInv
  | select k =>
      show focusInv (part2SelectFocus s k)
      simp only [part2SelectFocus]
      split
      · split
        next hlen =>
          intro _
          have hmem : (photoIdxList s.particles).get
              ⟨k % (photoIdxList s.particles).length, Nat.mod_lt k hlen⟩ ∈
                photoIdxList s.particles := List.get_mem _ _ _
          rcases photoIdx_mem hmem with ⟨p, hget, hph⟩
          exact ⟨p, by simpa using hget, hph⟩
        next =>
          intro hge
          simp at hge
      · split
        · intro hge
          simp at hge
        · exact hInv

/-- Witness for C5 at a concrete input: a SCATTER state holding one PHOTO
particle with the focus target unset, stepped by a PINCH. -/
theorem C5_witness :
    focusInv (SceneState.mk Mode.SCATTER [SceneParticle.mk PType.PHOTO 0] (-1)) ∧
    focusInv (sceneStep (SceneOp.pinch 0)
      (SceneState.mk Mode.SCATTER [SceneParticle.mk PType.PHOTO 0] (-1))) :=
  have h0 : focusInv (SceneState.mk Mode.SCATTER [SceneParticle.mk PType.PHOTO 0] (-1)) := by
    intro hge
    simp at hge
  ⟨h0, C5_focus_invariant (SceneOp.pinch 0)
    (SceneState.mk Mode.SCATTER [SceneParticle.mk PType.PHOTO 0] (-1)) h0⟩

/-- With the focus index unset, every position of the forEach takes the
push-away branch, whatever the running registry index is. -/
theorem focusTargetsAux_unset (anchors : List Vec3) (idx : Nat) :
    focusTargetsAux (-1) idx anchors =
      anchors.map fun sp =>
        (⟨sp.x * 2.5, sp.y * 2.5, sp.z * 2.5⟩, (⟨0.1, 0.1, 0.1⟩ : Vec3)) := by
  induction anchors generalizing idx with
  | nil => rfl
  | cons sp rest ih =>
      have hne : ((idx : ℤ) ≠ -1) := by omega
      simp only [focusTargetsAux, focusTargetFor, if_neg hne, List.map_cons, ih]

/-- Claim C10: when the mode is FOCUS but focusedPhotoIndex holds its initial
value minus one, the FOCUS pass of calculateTargets in
src/components/Scene.tsx is total and assigns every particle, PHOTO
particles included, the push-away target (the scatter anchor scaled by 2.5
with scale 0.1); no particle receives the presentation slot. -/
theorem C10_focus_unset_total (anchors : List Vec3) :
    calculateTargetsFocus anchors (-1) =
      anchors.map fun sp =>
        (⟨sp.x * 2.5, sp.y * 2.5, sp.z * 2.5⟩, (⟨0.1, 0.1, 0.1⟩ : Vec3)) :=
  focusTargetsAux_unset anchors 0

/-- One integrator step multiplies the distance to a fixed target by exactly
(1 - alpha), for alpha at most one. -/
theorem lerpV_dist_step (p b : Vec3) (alpha : ℝ) (h : alpha ≤ 1) :
    distV (lerpV p b alpha) b = (1 - alpha) * distV p b := by
  unfold distV lerpV
  have hx : p.x + (b.x - p.x) * alpha - b.x = (1 - alpha) * (p.x - b.x) := by ring
  have hy : p.y + (b.y - p.y) * alpha - b.y = (1 - alpha) * (p.y - b.y) := by ring
  have hz : p.z + (b.z - p.z) * alpha - b.z = (1 - alpha) * (p.z - b.z) := by ring
  dsimp only
  rw [hx, hy, hz]
  have hsum : ((1 - alpha) * (p.x - b.x)) ^ 2 + ((1 - alpha) * (p.y - b.y)) ^ 2 +
      ((1 - alpha) * (p.z - b.z)) ^ 2 =
      (1 - alpha) ^ 2 * ((p.x - b.x) ^ 2 + (p.y - b.y) ^ 2 + (p.z - b.z) ^ 2) := by ring
  rw [hsum, Real.sqrt_mul (sq_nonneg (1 - alpha)), Real.sqrt_sq_eq_abs,
    abs_of_nonneg (by linarith : (0:ℝ) ≤ 1 - alpha)]

/-- Claim C7: starting from any position and any fixed target, N consecutive
integrator steps of ParticleItem.update with a constant blend factor alpha in
(0,1) leave the distance to the target at most (1 - alpha) to the N times the
initial distance (the embedding gives exact equality, hence the bound). -/
theorem C7_convergence (a b : Vec3) (alpha : ℝ) (N : Nat)
    (h0 : 0 < alpha) (h1 : alpha < 1) :
    distV (lerpIterV a b alpha N) b ≤ (1 - alpha) ^ N * distV a b := by
  induction N with
  | zero => simp [lerpIterV]
  | succ n ih =>
      have hstep : distV (lerpIterV a b alpha (n + 1)) b =
          (1 - alpha) * distV (lerpIterV a b alpha n) b :=
        lerpV_dist_step (lerpIterV a b alpha n) b alpha (le_of_lt h1)
      rw [hstep, pow_succ]
      calc (1 - alpha) * distV (lerpIterV a b alpha n) b
          ≤ (1 - alpha) * ((1 - alpha) ^ n * distV a b) :=
            mul_le_mul_of_nonneg_left ih (by linarith)
        _ = (1 - alpha) ^ n * (1 - alpha) * distV a b := by ring

/-- Witness for C7 at a concrete input: the blend factor 0.07 of
ParticleItem.update in src/components/Scene.tsx, three steps from the point
(1,0,0) toward the origin. -/
theorem C7_witness :
    (0:ℝ) < 0.07 ∧ (0.07:ℝ) < 1 ∧
    distV (lerpIterV ⟨1, 0, 0⟩ ⟨0, 0, 0⟩ 0.07 3) ⟨0, 0, 0⟩ ≤
      (1 - 0.07) ^ 3 * distV ⟨1, 0, 0⟩ ⟨0, 0, 0⟩ :=
  ⟨by norm_num, by norm_num,
    C7_convergence ⟨1, 0, 0⟩ ⟨0, 0, 0⟩ 0.07 3 (by norm_num) (by norm_num)⟩

/-- A 2D hypot along the x axis is the absolute difference. -/
theorem hypot2_axis (a : ℝ) : hypot2 a 0 = |a| := by
  unfold hypot2
  rw [show a ^ 2 + (0:ℝ) ^ 2 = a ^ 2 by ring, Real.sqrt_sq_eq_abs]

/-- A 3D hypot along the x axis is the absolute difference. -/
theorem hypot3_axis (a : ℝ) : hypot3 a 0 0 = |a| := by
  unfold hypot3
  rw [show a ^ 2 + (0:ℝ) ^ 2 + (0:ℝ) ^ 2 = a ^ 2 by ring, Real.sqrt_sq_eq_abs]

/-- A concrete hand frame on the x axis: wrist and thumb tip at the origin,
index tip far out at 0.9, the middle, ring and pinky tips at 0.1. -/
noncomputable def cHand : Hand := fun i =>
  if i = 8 then ⟨9/10, 0, 0⟩
  else if i = 12 ∨ i = 16 ∨ i = 20 then ⟨1/10, 0, 0⟩
  else ⟨0, 0, 0⟩

/-- Counterexample to claim C2 as stated: on the hand frame cHand the
MediaPipeService classifier returns FIST while the classifier described by
the claim (mean over the four non-thumb fingertips, distances consistently
2D, the same thresholds 0.05 / 0.25 / 0.4) returns NONE.  The service
averages only the three fingertips middle, ring and pinky, so the far-out
index finger is ignored: its three-finger mean is 0.1 (a FIST) while the
four-finger mean is 0.3 (ambiguous). -/
theorem C2_counterexample :
    detectGestures cHand = Gesture.FIST ∧
    specGestureClassify 0.05 0.25 0.4 cHand = Gesture.NONE := by
  have h0 : cHand 0 = ⟨0, 0, 0⟩ := by norm_num [cHand]
  have h4 : cHand 4 = ⟨0, 0, 0⟩ := by norm_num [cHand]
  have h8 : cHand 8 = ⟨9/10, 0, 0⟩ := by norm_num [cHand]
  have h12 : cHand 12 = ⟨1/10, 0, 0⟩ := by norm_num [cHand]
  have h16 : cHand 16 = ⟨1/10, 0, 0⟩ := by norm_num [cHand]
  have h20 : cHand 20 = ⟨1/10, 0, 0⟩ := by norm_num [cHand]
  constructor
  · unfold detectGestures
    rw [h0, h4, h8, h12, h16, h20]
    dsimp only
    rw [show (0:ℝ) - 9/10 = -(9/10) by ring]
    rw [show ((0:ℝ) - 0) = 0 by ring]
    rw [hypot3_axis, show (1/10 - (0:ℝ)) = 1/10 by ring, hypot2_axis]
    rw [if_neg (by rw [abs_neg, abs_of_nonneg (by norm_num : (0:ℝ) ≤ 9/10)]; norm_num)]
    rw [if_pos (by rw [abs_of_nonneg (by norm_num : (0:ℝ) ≤ 1/10)]; norm_num)]
  · unfold specGestureClassify
    rw [h0, h4, h8, h12, h16, h20]
    dsimp only
    rw [show (0:ℝ) - 9/10 = -(9/10) by ring]
    rw [show ((0:ℝ) - 0) = 0 by ring]
    rw [show (9/10 - (0:ℝ)) = 9/10 by ring, show (1/10 - (0:ℝ)) = 1/10 by ring]
    rw [hypot2_axis, hypot2_axis, hypot2_axis]
    rw [show |(-(9/10) : ℝ)| = 9/10 by rw [abs_neg]; exact abs_of_nonneg (by norm_num)]
    rw [show |(9/10 : ℝ)| = 9/10 from abs_of_nonneg (by norm_num)]
    rw [show |(1/10 : ℝ)| = 1/10 from abs_of_nonneg (by norm_num)]
    rw [if_neg (by norm_num), if_neg (by norm_num), if_neg (by norm_num)]

/-- Claim C2 amended: the frame classifier of src/components/Scene.tsx does
satisfy the claimed shape: it computes the pinch distance and the extension
consistently in 2D, averages the four non-thumb fingertips, checks PINCH
first with threshold 0.05, then FIST below 0.25 and OPEN above 0.4, and
otherwise yields no transition.  The MediaPipeService classifier of part_004
deviates: its pinch distance is 3D and its extension averages only the three
fingertips middle, ring and pinky (see the counterexample). -/
theorem C2_scene_matches_spec (h : Hand) :
    sceneGesture h = specGestureClassify 0.05 0.25 0.4 h := rfl

/-- Counterexample to claim C6 as stated: the TREE-mode height of a DECOR
particle in src/components/Scene.tsx is t * 32 - 15, not t * H - H / 2 for
the vertical span H = 32 read off the same formula.  At slot 1499 the target
height is 32 * 1499 / 1500 - 15, which exceeds H / 2 = 16, and at slot 0 the
height is -15, not -16. -/
theorem C6_counterexample :
    (treeDecorTarget 1499 0).y > 16 ∧ (treeDecorTarget 0 0).y = -15 := by
  constructor
  · show (1499:ℝ) / 1500 * 32 - 15 > 16
    norm_num
  · norm_num [treeDecorTarget]

/-- Claim C6 amended: in TREE mode every DECOR particle target lies on the
helix with t = slotIndex / 1500, horizontal radius 13 * (1 - t) and height
t * 32 - 15; consequently for every slot below 1500 the target height lies in
the interval from -15 inclusive to 17 exclusive and the horizontal radius
(the euclidean length of the x and z components) lies in [0, 13]. -/
theorem C6_tree_decor_bounds (slot : Nat) (time : ℝ) (hs : slot < 1500) :
    (-15 ≤ (treeDecorTarget slot time).y ∧ (treeDecorTarget slot time).y < 17) ∧
    (0 ≤ Real.sqrt ((treeDecorTarget slot time).x ^ 2 + (treeDecorTarget slot time).z ^ 2) ∧
      Real.sqrt ((treeDecorTarget slot time).x ^ 2 + (treeDecorTarget slot time).z ^ 2) ≤ 13) := by
  have hcast : (slot : ℝ) ≤ 1499 := by
    have : slot ≤ 1499 := by omega
    exact_mod_cast this
  have hnn : (0:ℝ) ≤ (slot : ℝ) := Nat.cast_nonneg slot
  have ht0 : (0:ℝ) ≤ (slot : ℝ) / 1500 := by positivity
  have ht1 : (slot : ℝ) / 1500 ≤ 1499 / 1500 := by linarith
  constructor
  · constructor
    · show -15 ≤ (slot : ℝ) / 1500 * 32 - 15
      nlinarith
    · show (slot : ℝ) / 1500 * 32 - 15 < 17
      nlinarith
  · set a := (slot : ℝ) / 1500 * 50 * Real.pi + time * 0.5 with ha
    have hr0 : (0:ℝ) ≤ 13 * (1 - (slot : ℝ) / 1500) := by nlinarith
    have hkey : (treeDecorTarget slot time).x ^ 2 + (treeDecorTarget slot time).z ^ 2 =
        (13 * (1 - (slot : ℝ) / 1500)) ^ 2 := by
      show (Real.cos a * (13 * (1 - (slot : ℝ) / 1500))) ^ 2 +
          (Real.sin a * (13 * (1 - (slot : ℝ) / 1500))) ^ 2 = _
      calc (Real.cos a * (13 * (1 - (slot : ℝ) / 1500))) ^ 2 +
          (Real.sin a * (13 * (1 - (slot : ℝ) / 1500))) ^ 2
          = (Real.sin a ^ 2 + Real.cos a ^ 2) * (13 * (1 - (slot : ℝ) / 1500)) ^ 2 := by ring
        _ = (13 * (1 - (slot : ℝ) / 1500)) ^ 2 := by
            rw [Real.sin_sq_add_cos_sq]; ring
    rw [hkey, Real.sqrt_sq hr0]
    constructor
    · exact hr0
    · nlinarith

/-- Witness for C6 at a concrete input: slot 0 at time 0. -/
theorem C6_witness :
    0 < 1500 ∧
    ((-15 ≤ (treeDecorTarget 0 0).y ∧ (treeDecorTarget 0 0).y < 17) ∧
      (0 ≤ Real.sqrt ((treeDecorTarget 0 0).x ^ 2 + (treeDecorTarget 0 0).z ^ 2) ∧
        Real.sqrt ((treeDecorTarget 0 0).x ^ 2 + (treeDecorTarget 0 0).z ^ 2) ≤ 13)) :=
  ⟨by norm_num, C6_tree_decor_bounds 0 0 (by norm_num)⟩


/-- Evaluation of the DECOR branch of updateScatterPos. -/
theorem updateScatterPos_decor (index total : Nat) (r1 r2 : ℝ) :
    updateScatterPos PType.DECOR index total r1 r2 =
      ⟨(12 + r1 * 8) * Real.sin (Real.arccos (1 - 2 * ((index : ℝ) / (total : ℝ)))) *
          Real.cos (Real.pi * (1 + Real.sqrt 5) * (index : ℝ)),
        (12 + r1 * 8) * Real.sin (Real.arccos (1 - 2 * ((index : ℝ) / (total : ℝ)))) *
          Real.sin (Real.pi * (1 + Real.sqrt 5) * (index : ℝ)),
        (12 + r1 * 8) * Real.cos (Real.arccos (1 - 2 * ((index : ℝ) / (total : ℝ))))⟩ := by
  simp only [updateScatterPos]
  rw [if_neg (by decide), if_neg (by decide)]

/-- Evaluation of the DUST branch of updateScatterPos. -/
theorem updateScatterPos_dust (index total : Nat) (r1 r2 : ℝ) :
    updateScatterPos PType.DUST index total r1 r2 =
      ⟨(30 + r2 * 10) * Real.sin (Real.arccos (1 - 2 * ((index : ℝ) / (total : ℝ)))) *
          Real.cos (Real.pi * (1 + Real.sqrt 5) * (index : ℝ)),
        (30 + r2 * 10) * Real.sin (Real.arccos (1 - 2 * ((index : ℝ) / (total : ℝ)))) *
          Real.sin (Real.pi * (1 + Real.sqrt 5) * (index : ℝ)),
        (30 + r2 * 10) * Real.cos (Real.arccos (1 - 2 * ((index : ℝ) / (total : ℝ))))⟩ := by
  simp only [updateScatterPos]
  rw [if_neg (by decide)]
  simp only [if_true]

/-- Counterexample to claim C8 as stated: the scatter-anchor computation of
part_002 draws a fresh random radius for DECOR (and DUST) particles, so two
calls with identical (kind, slotIndex, totalOfKind) can differ.  At index 0
and total 4000 the anchor is the pole (0, 0, radius) with radius
12 + random * 8: the draw 0 gives (0,0,12) while the draw one half gives
(0,0,16). -/
theorem C8_counterexample :
    updateScatterPos PType.DECOR 0 4000 0 0 ≠ updateScatterPos PType.DECOR 0 4000 (1/2) 0 := by
  intro hEq
  have hz := congrArg Vec3.z hEq
  rw [updateScatterPos_decor, updateScatterPos_decor] at hz
  dsimp only at hz
  norm_num [Real.arccos_one] at hz

/-- Claim C8 amended: only the PHOTO branch of updateScatterPos is a pure
function of its arguments; it ignores the random draws entirely, so two calls
with identical (slotIndex, totalOfKind) return identical output.  For DECOR
and DUST the radius is randomized, so purity fails there (see the
counterexample); determinism for those kinds holds only because the anchor is
computed once at construction and cached. -/
theorem C8_photo_anchor_pure (index total : Nat) (r1 r2 s1 s2 : ℝ) :
    updateScatterPos PType.PHOTO index total r1 r2 =
      updateScatterPos PType.PHOTO index total s1 s2 := rfl

/-- Counterexample to claim C9 as stated: for totalOfKind equal to one the
anchor of part_002 is the pole on the z axis, (0, 0, radius), not the claimed
(0, radius, 0).  With the random draw 0 the radius is 12 and the computed
anchor has y component 0, not 12. -/
theorem C9_counterexample :
    updateScatterPos PType.DECOR 0 1 0 0 ≠ Vec3.mk 0 12 0 := by
  intro hEq
  have hy := congrArg Vec3.y hEq
  rw [updateScatterPos_decor] at hy
  dsimp only at hy
  norm_num [Real.arccos_one] at hy

/-- Claim C9 amended: for totalOfKind equal to one and slot index zero the
anchor computation involves no division by zero (the quotient is 0 / 1) and
returns the well-defined finite pole on the z axis, (0, 0, radius), where the
radius is the kind-specific random band value. -/
theorem C9_singleton_anchor (r1 r2 : ℝ) :
    updateScatterPos PType.DECOR 0 1 r1 r2 = Vec3.mk 0 0 (12 + r1 * 8) ∧
    updateScatterPos PType.DUST 0 1 r1 r2 = Vec3.mk 0 0 (30 + r2 * 10) := by
  rw [updateScatterPos_decor, updateScatterPos_dust]
  constructor <;>
    · norm_num [Real.arccos_one]
